import Mathlib

/-!
Shallow embedding of the SaaS backend (src/main.py, src/models.py) for
verification of its natural-language specification.

The data store (a hosted relational database accessed through a client
library) is modelled as an explicit in-memory state `Store`; store-assigned
row identifiers are modelled by per-table counters.  Fallible store calls in
the signup flow are driven by an explicit fault-injection environment
`SignupEnv`, since the claims quantify over store failures.  Handlers return
a `Res` value distinguishing a typed success, a raised `HTTPException`
(status code and detail string), and an unhandled exception escaping the
handler.
-/

namespace SaaS

/-- A row of the `companies` table (see src/main.py signup/update_settings). -/
structure Company where
  id : Nat
  name : String
  shopify_domain : Option String
  api_key : Option String
  access_token : Option String
  created_at : String
deriving Repr, DecidableEq

/-- A row of the `users` table.  `password_hash` is an `Option` because the
login handler guards against a missing value (src/main.py line 205). -/
structure User where
  id : Nat
  email : String
  password_hash : Option String
  company_id : Nat
deriving Repr, DecidableEq

/-- A row of the `dashboard_data` table (src/main.py get_dashboard). -/
structure DashboardRow where
  company_id : Nat
  created_at : String
  data_json : Option String
deriving Repr, DecidableEq

/-- The persistent state behind the data store gateway.  `nextCompanyId` and
`nextUserId` model store-assigned integer identifiers. -/
structure Store where
  companies : List Company
  users : List User
  dashboard : List DashboardRow
  nextCompanyId : Nat
  nextUserId : Nat
deriving Repr, DecidableEq

/-- Result of one handler invocation: a typed response, a raised
`HTTPException status_code detail`, or an unhandled exception (with the
exception text) escaping the handler. -/
inductive Res (α : Type) where
  | ok (a : α)
  | http (status : Nat) (detail : String)
  | unhandled (msg : String)
deriving Repr, DecidableEq

/-- Modelled from the spec (sections 5 and 7) and the claim text: the web
framework surfaces an unhandled exception escaping a handler as an HTTP 500
response, while a raised `HTTPException` keeps its own status code.  This
framework behaviour is not part of src/. -/
def surfacedStatus : Res α → Nat
  | .ok _ => 200
  | .http st _ => st
  | .unhandled _ => 500

/-! ### Request / response schemas (src/models.py) -/

structure LoginRequest where
  email : String
  password : String
deriving Repr, DecidableEq

structure SignupRequest where
  email : String
  password : String
  company_name : String
deriving Repr, DecidableEq

/-- src/models.py `ShopifyCredentials`: all four fields optional, default
`None` (an omitted field arrives as `none`). -/
structure ShopifyCredentials where
  shop_domain : Option String := none
  access_token : Option String := none
  api_key : Option String := none
  api_secret : Option String := none
deriving Repr, DecidableEq

structure SettingsUpdateRequest where
  shopify : ShopifyCredentials
deriving Repr, DecidableEq

structure LoginResponse where
  userId : String
  companyId : String
deriving Repr, DecidableEq

structure SignupResponse where
  userId : String
  companyId : String
deriving Repr, DecidableEq

structure CompanyResponse where
  id : Nat
  name : String
  shopify_domain : Option String
  api_key : Option String
  access_token : Option String
  created_at : String
deriving Repr, DecidableEq

structure DashboardCompanyResponse where
  company_id : String
  name : String
  data : Option String
deriving Repr, DecidableEq

/-! ### Python `int()` on strings

The dashboard/settings handlers receive `company_id` as a path string and
convert it with `int(company_id)` before querying the store.  `pythonInt?`
models CPython `int(str)`: optional surrounding whitespace, an optional
sign, then a nonempty run of decimal digits; anything else raises
`ValueError` (modelled as `none`).  Underscore digit separators and
non-ASCII digits accepted by CPython are not modelled. -/

def digitsToNat (ds : List Char) : Nat :=
  ds.foldl (fun a c => a * 10 + (c.toNat - 48)) 0

def pythonInt? (s : String) : Option Int :=
  let t1 := s.data.dropWhile Char.isWhitespace
  let t2 := (t1.reverse.dropWhile Char.isWhitespace).reverse
  match t2 with
  | [] => none
  | c :: rest =>
    let signed : Bool × List Char :=
      if c == '-' then (true, rest)
      else if c == '+' then (false, rest)
      else (false, c :: rest)
    if !signed.2.isEmpty && signed.2.all Char.isDigit then
      let n : Nat := digitsToNat signed.2
      some (if signed.1 then -(n : Int) else (n : Int))
    else none

/-- The text of the `ValueError` raised by `int()` on a non-numeric string
(CPython additionally quotes and escapes the offending literal). -/
def valueErrorMsg (s : String) : String :=
  "invalid literal for int() with base 10: " ++ s

/-! ### Credential hasher

Modelled from the spec (section 4.1) and the documented behaviour of the
external `bcrypt` library used by src/main.py, which is not part of src/:
`hashpw` produces `"$2b$12$" ++ salt ++ digest` where the 22-character salt
is embedded in the output, and `checkpw` re-extracts the salt, recomputes
the hash, and compares; a stored value without a well-formed bcrypt header
and salt section makes `checkpw` raise (`Except.error`), it does not return
`False`.  The digest is a simple executable stand-in for the Blowfish-based
digest; its exact value is irrelevant to the claims, which depend only on
the salt embedding and the recompute-and-compare structure. -/

def bcryptHeader : List Char := ['$', '2', 'b', '$', '1', '2', '$']

def bcryptMix (password salt : List Char) : Nat :=
  (password ++ salt).foldl (fun a c => (a * 131 + c.toNat) % 2 ^ 64) 5381

def bcryptDigest (password salt : List Char) : List Char :=
  Nat.toDigits 16 (bcryptMix password salt)

def hashpw (password salt : String) : String :=
  String.mk (bcryptHeader ++ (salt.data ++ bcryptDigest password.data salt.data))

def checkpw (password stored : String) : Except Unit Bool :=
  if stored.data.take 7 = bcryptHeader ∧ 29 ≤ stored.data.length then
    .ok (decide ((hashpw password
      (String.mk ((stored.data.drop 7).take 22))).data = stored.data))
  else
    .error ()

/-! ### Login handler (src/main.py lines 176-235) -/

/-- src/main.py `login`.  The guard `if not stored_password_hash` treats a
missing hash (`None`) and an empty string alike (Python truthiness), hence
the `none` branch and the `isEmpty` test produce the same 500. -/
def login (payload : LoginRequest) (s : Store) : Res LoginResponse :=
  match s.users.find? (fun u => u.email == payload.email) with
  | none => .http 401 "Invalid email or password."
  | some user =>
    match user.password_hash with
    | none => .http 500 "User account has no password set."
    | some storedHash =>
      if storedHash.isEmpty then
        .http 500 "User account has no password set."
      else
        match checkpw payload.password storedHash with
        | .error _ => .http 500 "Error verifying password."
        | .ok valid =>
          if valid then
            .ok ⟨toString user.id, toString user.company_id⟩
          else
            .http 401 "Invalid email or password."

/-! ### Signup handler (src/main.py lines 238-330) -/

/-- Outcome of a store insert call: success, an empty inserted-rows list, or
a raised store exception carrying the exception text. -/
inductive InsertOutcome where
  | ok
  | emptyRows
  | raises (msg : String)
deriving Repr, DecidableEq

/-- Fault-injection environment for the signup flow's store writes. -/
structure SignupEnv where
  companyInsert : InsertOutcome
  userInsert : InsertOutcome
  deleteRaises : Bool
deriving Repr, DecidableEq

/-- Which store mutations the signup invocation attempted. -/
structure SignupTrace where
  companyInsertAttempted : Bool
  userInsertAttempted : Bool
  deleteAttempted : Bool
deriving Repr, DecidableEq

/-- The `str(e)` of the internal `HTTPException(500, "Failed to create
user.")` raised when the user insert returns no rows (src/main.py line 313);
that raise sits inside the `try` block, so it is caught by the
`except Exception as e` on line 317 and its text is interpolated on line
325.  Starlette renders an `HTTPException` as `"{status_code}: {detail}"`. -/
def emptyUserInsertExcText : String := "500: Failed to create user."

/-- src/main.py `signup`.  `salt` models the fresh random salt produced by
`bcrypt.gensalt()`; `env` drives the outcomes of the company insert, the
user insert, and the compensating delete.  Returns the handler result, the
store afterwards, and the trace of attempted mutations. -/
def signup (payload : SignupRequest) (salt : String) (env : SignupEnv)
    (s : Store) : Res SignupResponse × Store × SignupTrace :=
  match s.users.find? (fun u => u.email == payload.email) with
  | some _ => (.http 400 "Email already registered.", s, ⟨false, false, false⟩)
  | none =>
    let password_hash_str := hashpw payload.password salt
    match env.companyInsert with
    | .raises m => (.unhandled m, s, ⟨true, false, false⟩)
    | .emptyRows =>
      (.http 500 "Failed to create company.", s, ⟨true, false, false⟩)
    | .ok =>
      let company : Company :=
        ⟨s.nextCompanyId, payload.company_name, none, none, none, ""⟩
      let s1 : Store :=
        { s with companies := s.companies ++ [company],
                 nextCompanyId := s.nextCompanyId + 1 }
      let company_id := company.id
      let cleanedUp : Store :=
        if env.deleteRaises then s1
        else { s1 with
                 companies := s1.companies.filter (fun c => c.id != company_id) }
      match env.userInsert with
      | .raises m =>
        (.http 500 ("Failed to create user: " ++ m), cleanedUp, ⟨true, true, true⟩)
      | .emptyRows =>
        (.http 500 ("Failed to create user: " ++ emptyUserInsertExcText),
         cleanedUp, ⟨true, true, true⟩)
      | .ok =>
        let user : User := ⟨s1.nextUserId, payload.email, some password_hash_str, company_id⟩
        let s2 : Store :=
          { s1 with users := s1.users ++ [user], nextUserId := s1.nextUserId + 1 }
        (.ok ⟨toString user.id, toString company_id⟩, s2, ⟨true, true, false⟩)

/-! ### Settings handlers (src/main.py lines 94-173) -/

def get_settings (company_id : String) (s : Store) : Res CompanyResponse :=
  match pythonInt? company_id with
  | none => .unhandled (valueErrorMsg company_id)
  | some n =>
    match s.companies.find? (fun c => (c.id : Int) == n) with
    | none => .http 404 ("Company with ID " ++ company_id ++ " not found.")
    | some data =>
      .ok ⟨data.id, data.name, data.shopify_domain, data.api_key,
           data.access_token, data.created_at⟩

/-- The `update_data` written by `update_settings` (src/main.py lines
142-146): the three Shopify credential columns are overwritten from the
payload (an omitted payload field is `none` and is written as null), all
other columns of the row are untouched, and the payload's `api_secret`
field is never stored. -/
def settingsApply (payload : SettingsUpdateRequest) (c : Company) : Company :=
  { c with shopify_domain := payload.shopify.shop_domain,
           api_key := payload.shopify.api_key,
           access_token := payload.shopify.access_token }

/-- The store after the `.update(update_data).eq("id", n)` call: every
`companies` row whose id equals `n` gets the three credential columns
overwritten; every other row is untouched. -/
def settingsRowsAfter (payload : SettingsUpdateRequest) (n : Int)
    (rows : List Company) : List Company :=
  rows.map (fun c => if (c.id : Int) == n then settingsApply payload c else c)

def settingsStoreAfter (payload : SettingsUpdateRequest) (n : Int)
    (s : Store) : Store :=
  { s with companies := settingsRowsAfter payload n s.companies }

def update_settings (company_id : String) (payload : SettingsUpdateRequest)
    (s : Store) : Res CompanyResponse × Store :=
  match pythonInt? company_id with
  | none => (.unhandled (valueErrorMsg company_id), s)
  | some n =>
    match (s.companies.filter (fun c => (c.id : Int) == n)).map
        (settingsApply payload) with
    | [] =>
      (.http 404 ("Company with ID " ++ company_id ++ " not found."),
       settingsStoreAfter payload n s)
    | company :: _ =>
      (.ok ⟨company.id, company.name, company.shopify_domain, company.api_key,
            company.access_token, company.created_at⟩,
       settingsStoreAfter payload n s)

/-! ### Dashboard handler (src/main.py lines 47-91) -/

/-- The most recent `dashboard_data` row for a company: models
`.order("created_at", desc=True).limit(1).maybe_single()`.  Ties on
`created_at` keep the earlier row in the list. -/
def latestDashboardRow (rows : List DashboardRow) : Option DashboardRow :=
  rows.foldl
    (fun best d =>
      match best with
      | none => some d
      | some b => if b.created_at < d.created_at then some d else some b)
    none

/-- Python truthiness of the fetched `data_json` blob: `None` and an empty
blob are falsy (src/main.py line 90 `data_json if data_json else None`). -/
def jsonFalsy : Option String → Bool
  | none => true
  | some j => j.isEmpty

def get_dashboard (company_id : String) (s : Store) : Res DashboardCompanyResponse :=
  match pythonInt? company_id with
  | none => .unhandled (valueErrorMsg company_id)
  | some n =>
    match s.companies.find? (fun c => (c.id : Int) == n) with
    | none => .http 404 ("Company with ID " ++ company_id ++ " not found.")
    | some company_data =>
      let rows := s.dashboard.filter (fun d => (d.company_id : Int) == n)
      let data_json :=
        match latestDashboardRow rows with
        | some d => d.data_json
        | none => none
      .ok ⟨company_id, company_data.name,
           if jsonFalsy data_json then none else data_json⟩

/-! ### Derived observations used in theorem statements -/

/-- Whether a handler result is a raised `HTTPException` with the given
status code. -/
def isHttpWithStatus (st : Nat) : Res α → Bool
  | .http s _ => s == st
  | _ => false

/-- Whether a company row with the given id is present in the store. -/
def companyIdPresent (s : Store) (i : Nat) : Bool :=
  s.companies.any (fun c => c.id == i)

/-- Number of User rows with the given email whose referenced Company row
exists: the "Company/User pairs" for that email. -/
def userCompanyPairCount (s : Store) (e : String) : Nat :=
  ((s.users.filter (fun u => u.email == e)).filter
    (fun u => s.companies.any (fun c => c.id == u.company_id))).length

/-! ### Theorems -/

/-- C2: if the signup email already has a User row, signup fails with
HTTP 400 "Email already registered." before any mutation — the store is
returned unchanged and no insert or delete was attempted — and in
particular a store holding exactly one Company/User pair for that email
still holds exactly one afterwards. -/
theorem signup_duplicate_email_no_mutation
    (p : SignupRequest) (salt : String) (env : SignupEnv) (s : Store) (u0 : User)
    (hdup : s.users.find? (fun u => u.email == p.email) = some u0) :
    signup p salt env s =
      (.http 400 "Email already registered.", s, ⟨false, false, false⟩) ∧
    userCompanyPairCount (signup p salt env s).2.1 p.email =
      userCompanyPairCount s p.email ∧
    (userCompanyPairCount s p.email = 1 →
      userCompanyPairCount (signup p salt env s).2.1 p.email = 1) := by
  have h : signup p salt env s =
      (.http 400 "Email already registered.", s, ⟨false, false, false⟩) := by
    simp [signup, hdup]
  refine ⟨h, ?_, ?_⟩
  · rw [h]
  · rw [h]; exact id

/-- C2 witness: a store with one registered user/company pair rejects a
second signup with the same email and is left untouched. -/
theorem signup_duplicate_email_no_mutation_witness :
    (Store.mk [⟨1, "Acme", none, none, none, ""⟩]
        [⟨1, "a@b.c", some "h", 1⟩] [] 2 2).users.find?
      (fun u => u.email == "a@b.c") = some ⟨1, "a@b.c", some "h", 1⟩ ∧
    signup ⟨"a@b.c", "pw", "Acme"⟩ "salt" ⟨.ok, .ok, false⟩
        (Store.mk [⟨1, "Acme", none, none, none, ""⟩]
          [⟨1, "a@b.c", some "h", 1⟩] [] 2 2) =
      (.http 400 "Email already registered.",
       Store.mk [⟨1, "Acme", none, none, none, ""⟩]
         [⟨1, "a@b.c", some "h", 1⟩] [] 2 2,
       ⟨false, false, false⟩) :=
  ⟨rfl,
   (signup_duplicate_email_no_mutation ⟨"a@b.c", "pw", "Acme"⟩ "salt"
      ⟨.ok, .ok, false⟩
      (Store.mk [⟨1, "Acme", none, none, none, ""⟩]
        [⟨1, "a@b.c", some "h", 1⟩] [] 2 2)
      ⟨1, "a@b.c", some "h", 1⟩ rfl).1⟩

/-- C6: a signup in which both inserts return a row responds with the newly
inserted User id and Company id converted to strings, and the final store
holds exactly those two new rows. -/
theorem signup_success_returns_ids
    (p : SignupRequest) (salt : String) (dr : Bool) (s : Store)
    (hfresh : s.users.find? (fun u => u.email == p.email) = none) :
    signup p salt ⟨.ok, .ok, dr⟩ s =
      (.ok ⟨toString s.nextUserId, toString s.nextCompanyId⟩,
       ⟨s.companies ++ [⟨s.nextCompanyId, p.company_name, none, none, none, ""⟩],
        s.users ++ [⟨s.nextUserId, p.email, some (hashpw p.password salt),
          s.nextCompanyId⟩],
        s.dashboard, s.nextCompanyId + 1, s.nextUserId + 1⟩,
       ⟨true, true, false⟩) := by
  simp [signup, hfresh]

/-- C6 witness: signup on an empty store returns userId "1" and
companyId "1". -/
theorem signup_success_returns_ids_witness :
    (Store.mk [] [] [] 1 1).users.find? (fun u => u.email == "a@b.c") = none ∧
    signup ⟨"a@b.c", "pw", "Acme"⟩ "salt" ⟨.ok, .ok, false⟩ (Store.mk [] [] [] 1 1) =
      (.ok ⟨"1", "1"⟩,
       ⟨[⟨1, "Acme", none, none, none, ""⟩],
        [⟨1, "a@b.c", some (hashpw "pw" "salt"), 1⟩], [], 2, 2⟩,
       ⟨true, true, false⟩) :=
  ⟨rfl, signup_success_returns_ids ⟨"a@b.c", "pw", "Acme"⟩ "salt" false
    (Store.mk [] [] [] 1 1) rfl⟩

/-- C1: when the Company insert succeeds but the User insert fails (raises
or returns no row), signup attempts the compensating delete of the
just-created Company row (so when the delete does not itself fail, no row
with the new Company id remains), the delete's own failure is swallowed
(the response is identical whether the delete raises or succeeds), and the
handler fails with a raised HTTP 500 in either case. -/
theorem signup_user_insert_failure_compensates
    (p : SignupRequest) (salt : String) (s : Store) (ui : InsertOutcome) (dr : Bool)
    (hfresh : s.users.find? (fun u => u.email == p.email) = none)
    (hfail : (∃ m, ui = .raises m) ∨ ui = .emptyRows) :
    (signup p salt ⟨.ok, ui, dr⟩ s).2.2.deleteAttempted = true ∧
    isHttpWithStatus 500 (signup p salt ⟨.ok, ui, dr⟩ s).1 = true ∧
    (signup p salt ⟨.ok, ui, true⟩ s).1 = (signup p salt ⟨.ok, ui, false⟩ s).1 ∧
    companyIdPresent (signup p salt ⟨.ok, ui, false⟩ s).2.1 s.nextCompanyId
      = false := by
  rcases hfail with ⟨m, rfl⟩ | rfl <;>
    refine ⟨?_, ?_, ?_, ?_⟩ <;>
      simp [signup, hfresh, isHttpWithStatus, companyIdPresent]

/-- C1 witness: with a raising user insert and a raising compensating
delete, signup on an empty store still reports the 500 it would have
reported had the delete succeeded. -/
theorem signup_user_insert_failure_compensates_witness :
    (Store.mk [] [] [] 1 1).users.find? (fun u => u.email == "a@b.c") = none ∧
    (signup ⟨"a@b.c", "pw", "Acme"⟩ "salt" ⟨.ok, .raises "boom", true⟩
        (Store.mk [] [] [] 1 1)).2.2.deleteAttempted = true ∧
    isHttpWithStatus 500
      (signup ⟨"a@b.c", "pw", "Acme"⟩ "salt" ⟨.ok, .raises "boom", true⟩
        (Store.mk [] [] [] 1 1)).1 = true ∧
    (signup ⟨"a@b.c", "pw", "Acme"⟩ "salt" ⟨.ok, .raises "boom", true⟩
        (Store.mk [] [] [] 1 1)).1 =
      (signup ⟨"a@b.c", "pw", "Acme"⟩ "salt" ⟨.ok, .raises "boom", false⟩
        (Store.mk [] [] [] 1 1)).1 :=
  have h := signup_user_insert_failure_compensates ⟨"a@b.c", "pw", "Acme"⟩ "salt"
    (Store.mk [] [] [] 1 1) (.raises "boom") true rfl (Or.inl ⟨"boom", rfl⟩)
  ⟨rfl, h.1, h.2.1, h.2.2.1⟩

/-- C5 counterexample: the signup user-insert failure path does not send a
generic short description only — the underlying store exception's text is
interpolated into the HTTP 500 detail, so two different internal errors
produce two different client-visible responses. -/
theorem signup_error_detail_leak_counterexample :
    (signup ⟨"a@b.c", "pw", "Acme"⟩ "salt"
        ⟨.ok, .raises "connection reset by peer", false⟩
        (Store.mk [] [] [] 1 1)).1 =
      .http 500 ("Failed to create user: " ++ "connection reset by peer") ∧
    (signup ⟨"a@b.c", "pw", "Acme"⟩ "salt"
        ⟨.ok, .raises "connection reset by peer", false⟩
        (Store.mk [] [] [] 1 1)).1 ≠
      (signup ⟨"a@b.c", "pw", "Acme"⟩ "salt"
        ⟨.ok, .raises "socket timeout", false⟩
        (Store.mk [] [] [] 1 1)).1 :=
  ⟨rfl, by decide⟩

/-- C5 (amended): handler-boundary translations of store errors use fixed
generic messages, except signup's user-insert failure path, whose HTTP 500
detail appends the underlying exception's text after
"Failed to create user: ". -/
theorem signup_user_insert_error_detail
    (p : SignupRequest) (salt : String) (s : Store) (m : String) (dr : Bool)
    (hfresh : s.users.find? (fun u => u.email == p.email) = none) :
    (signup p salt ⟨.ok, .raises m, dr⟩ s).1 =
      .http 500 ("Failed to create user: " ++ m) := by
  simp [signup, hfresh]

/-- C5 witness: a store exception "boom" during the user insert surfaces as
detail "Failed to create user: boom". -/
theorem signup_user_insert_error_detail_witness :
    (Store.mk [] [] [] 1 1).users.find? (fun u => u.email == "a@b.c") = none ∧
    (signup ⟨"a@b.c", "pw", "Acme"⟩ "salt" ⟨.ok, .raises "boom", false⟩
        (Store.mk [] [] [] 1 1)).1 =
      .http 500 ("Failed to create user: " ++ "boom") :=
  ⟨rfl, signup_user_insert_error_detail ⟨"a@b.c", "pw", "Acme"⟩ "salt"
    (Store.mk [] [] [] 1 1) "boom" false rfl⟩

/-- C3 counterexample: on a malformed stored hash, password verification
raises (`Except.error`, modelling the `ValueError` from `bcrypt.checkpw`)
rather than returning false, and login translates it into HTTP 500
"Error verifying password.", not an HTTP 401 authentication failure. -/
theorem login_malformed_hash_counterexample :
    checkpw "pw" "nothash" = .error () ∧
    login ⟨"a@b.c", "pw"⟩
        (Store.mk [] [⟨1, "a@b.c", some "nothash", 1⟩] [] 2 2) =
      .http 500 "Error verifying password." :=
  ⟨rfl, rfl⟩

/-- C3 (amended): when verification of the stored hash raises (malformed
hash), login catches the error and responds with a raised HTTP 500
"Error verifying password." — a handled error response, not a crash and
not HTTP 401. -/
theorem login_malformed_hash_http500
    (p : LoginRequest) (s : Store) (u : User) (h : String)
    (hfind : s.users.find? (fun v => v.email == p.email) = some u)
    (hh : u.password_hash = some h) (hne : h.isEmpty = false)
    (herr : checkpw p.password h = .error ()) :
    login p s = .http 500 "Error verifying password." := by
  simp [login, hfind, hh, hne, herr]

/-- C3 witness: a user whose stored hash is the malformed string "nothash"
makes login return the 500 verification error. -/
theorem login_malformed_hash_http500_witness :
    (Store.mk [] [⟨1, "a@b.c", some "nothash", 1⟩] [] 2 2).users.find?
      (fun v => v.email == "a@b.c") = some ⟨1, "a@b.c", some "nothash", 1⟩ ∧
    ("nothash" : String).isEmpty = false ∧
    checkpw "pw" "nothash" = .error () ∧
    login ⟨"a@b.c", "pw"⟩
        (Store.mk [] [⟨1, "a@b.c", some "nothash", 1⟩] [] 2 2) =
      .http 500 "Error verifying password." :=
  ⟨rfl, rfl, rfl,
   login_malformed_hash_http500 ⟨"a@b.c", "pw"⟩
     (Store.mk [] [⟨1, "a@b.c", some "nothash", 1⟩] [] 2 2)
     ⟨1, "a@b.c", some "nothash", 1⟩ "nothash" rfl rfl rfl rfl⟩

/-- C4: a login whose email matches no User row and a login whose email
matches a row but whose password fails verification both produce the same
raised HTTP 401 with detail "Invalid email or password." — the two failure
responses are indistinguishable in status and message. -/
theorem login_failures_indistinguishable
    (p1 p2 : LoginRequest) (s1 s2 : Store) (u : User) (h : String)
    (h1 : s1.users.find? (fun v => v.email == p1.email) = none)
    (h2 : s2.users.find? (fun v => v.email == p2.email) = some u)
    (hh : u.password_hash = some h) (hne : h.isEmpty = false)
    (hwrong : checkpw p2.password h = .ok false) :
    login p1 s1 = .http 401 "Invalid email or password." ∧
    login p2 s2 = .http 401 "Invalid email or password." ∧
    login p1 s1 = login p2 s2 := by
  have e1 : login p1 s1 = .http 401 "Invalid email or password." := by
    simp [login, h1]
  have e2 : login p2 s2 = .http 401 "Invalid email or password." := by
    simp [login, h2, hh, hne, hwrong]
  exact ⟨e1, e2, e1.trans e2.symm⟩

/-- C4 witness: an unknown email against an empty store and a wrong
password against a store holding a well-formed bcrypt hash of "right"
give identical 401 responses. -/
theorem login_failures_indistinguishable_witness :
    checkpw "wrong" (hashpw "right" "aaaaaaaaaaaaaaaaaaaaaa") = .ok false ∧
    login ⟨"x@y.z", "wrong"⟩ (Store.mk [] [] [] 1 1) =
      .http 401 "Invalid email or password." ∧
    login ⟨"a@b.c", "wrong"⟩
        (Store.mk []
          [⟨1, "a@b.c", some (hashpw "right" "aaaaaaaaaaaaaaaaaaaaaa"), 1⟩]
          [] 2 2) =
      .http 401 "Invalid email or password." ∧
    login ⟨"x@y.z", "wrong"⟩ (Store.mk [] [] [] 1 1) =
      login ⟨"a@b.c", "wrong"⟩
        (Store.mk []
          [⟨1, "a@b.c", some (hashpw "right" "aaaaaaaaaaaaaaaaaaaaaa"), 1⟩]
          [] 2 2) :=
  have h := login_failures_indistinguishable ⟨"x@y.z", "wrong"⟩ ⟨"a@b.c", "wrong"⟩
    (Store.mk [] [] [] 1 1)
    (Store.mk []
      [⟨1, "a@b.c", some (hashpw "right" "aaaaaaaaaaaaaaaaaaaaaa"), 1⟩] [] 2 2)
    ⟨1, "a@b.c", some (hashpw "right" "aaaaaaaaaaaaaaaaaaaaaa"), 1⟩
    (hashpw "right" "aaaaaaaaaaaaaaaaaaaaaa")
    rfl rfl rfl (by rfl) (by rfl)
  ⟨by rfl, h.1, h.2.1, h.2.2⟩

/-- C8: a settings update whose parsed company id matches no Company row
(zero affected rows) responds with a raised HTTP 404. -/
theorem update_settings_zero_rows_404
    (cid : String) (payload : SettingsUpdateRequest) (s : Store) (n : Int)
    (hp : pythonInt? cid = some n)
    (hnone : ∀ c ∈ s.companies, (c.id : Int) ≠ n) :
    (update_settings cid payload s).1 =
      .http 404 ("Company with ID " ++ cid ++ " not found.") := by
  have hfilt : s.companies.filter (fun c => (c.id : Int) == n) = [] := by
    rw [List.filter_eq_nil_iff]
    intro c hc
    simpa using hnone c hc
  simp [update_settings, hp, hfilt]

/-- C8 witness: updating settings for company "7" against a store holding
only company 1 yields 404. -/
theorem update_settings_zero_rows_404_witness :
    pythonInt? "7" = some 7 ∧
    (update_settings "7" ⟨⟨some "d", some "t", some "k", none⟩⟩
        (Store.mk [⟨1, "Acme", none, none, none, ""⟩] [] [] 2 1)).1 =
      .http 404 ("Company with ID " ++ "7" ++ " not found.") :=
  ⟨by decide,
   update_settings_zero_rows_404 "7" ⟨⟨some "d", some "t", some "k", none⟩⟩
     (Store.mk [⟨1, "Acme", none, none, none, ""⟩] [] [] 2 1) 7
     (by decide) (by decide)⟩

/-- C9: when the company_id path segment does not parse as a Python decimal
integer, all three company-keyed handlers propagate the unhandled
`ValueError` raised by `int()` — surfacing as HTTP 500 under the framework
mapping — rather than responding HTTP 404. -/
theorem nonnumeric_company_id_unhandled
    (cid : String) (payload : SettingsUpdateRequest) (s : Store)
    (hp : pythonInt? cid = none) :
    get_dashboard cid s = .unhandled (valueErrorMsg cid) ∧
    get_settings cid s = .unhandled (valueErrorMsg cid) ∧
    (update_settings cid payload s).1 = .unhandled (valueErrorMsg cid) ∧
    surfacedStatus (get_dashboard cid s) = 500 ∧
    surfacedStatus (get_settings cid s) = 500 ∧
    surfacedStatus (update_settings cid payload s).1 = 500 := by
  refine ⟨?_, ?_, ?_, ?_, ?_, ?_⟩ <;>
    simp [get_dashboard, get_settings, update_settings, surfacedStatus, hp]

/-- C9 witness: company id "abc" makes every company-keyed handler raise
the unhandled conversion error. -/
theorem nonnumeric_company_id_unhandled_witness :
    pythonInt? "abc" = none ∧
    get_dashboard "abc" (Store.mk [] [] [] 1 1) =
      .unhandled (valueErrorMsg "abc") ∧
    get_settings "abc" (Store.mk [] [] [] 1 1) =
      .unhandled (valueErrorMsg "abc") ∧
    (update_settings "abc" ⟨⟨none, none, none, none⟩⟩
        (Store.mk [] [] [] 1 1)).1 = .unhandled (valueErrorMsg "abc") ∧
    surfacedStatus (get_dashboard "abc" (Store.mk [] [] [] 1 1)) = 500 :=
  have h := nonnumeric_company_id_unhandled "abc" ⟨⟨none, none, none, none⟩⟩
    (Store.mk [] [] [] 1 1) (by decide)
  ⟨by decide, h.1, h.2.1, h.2.2.1, h.2.2.2.1⟩

/-- Verification of a hash against the password it was produced from
succeeds, for any 22-character salt. -/
theorem checkpw_hashpw (x salt : String) (hl : salt.data.length = 22) :
    checkpw x (hashpw x salt) = .ok true := by
  have hcs : (hashpw x salt).data =
      bcryptHeader ++ (salt.data ++ bcryptDigest x.data salt.data) := rfl
  have hsalt : ((hashpw x salt).data.drop 7).take 22 = salt.data := by
    rw [hcs, List.drop_left' (show bcryptHeader.length = 7 from rfl),
      List.take_left' hl]
  have hcond : (hashpw x salt).data.take 7 = bcryptHeader ∧
      29 ≤ (hashpw x salt).data.length := by
    refine ⟨?_, ?_⟩
    · rw [hcs]; exact List.take_left' rfl
    · rw [hcs]
      have h7 : bcryptHeader.length = 7 := rfl
      simp only [List.length_append]
      omega
  unfold checkpw
  rw [if_pos hcond, hsalt]
  have heta : String.mk salt.data = salt := rfl
  rw [heta]
  simp

/-- Hashing the same password with two distinct 22-character salts yields
two distinct stored strings (the salt is embedded in the output). -/
theorem hashpw_salt_injective (x s1 s2 : String)
    (hl1 : s1.data.length = 22) (hl2 : s2.data.length = 22)
    (h : hashpw x s1 = hashpw x s2) : s1 = s2 := by
  have h' : bcryptHeader ++ (s1.data ++ bcryptDigest x.data s1.data) =
      bcryptHeader ++ (s2.data ++ bcryptDigest x.data s2.data) :=
    congrArg String.data h
  have h2 := List.append_cancel_left h'
  exact String.ext (List.append_inj h2 (hl1.trans hl2.symm)).1

/-- C7: hashing a password with two different fresh 22-character salts
(the model of two separate calls with random salting) produces two
different output strings, and verification of the password against either
output succeeds. -/
theorem hash_fresh_salt_verify_roundtrip (x s1 s2 : String)
    (hl1 : s1.data.length = 22) (hl2 : s2.data.length = 22) (hne : s1 ≠ s2) :
    hashpw x s1 ≠ hashpw x s2 ∧
    checkpw x (hashpw x s1) = .ok true ∧
    checkpw x (hashpw x s2) = .ok true :=
  ⟨fun h => hne (hashpw_salt_injective x s1 s2 hl1 hl2 h),
   checkpw_hashpw x s1 hl1, checkpw_hashpw x s2 hl2⟩

/-- C7 witness: two concrete 22-character salts for password "pw". -/
theorem hash_fresh_salt_verify_roundtrip_witness :
    ("aaaaaaaaaaaaaaaaaaaaaa" : String).data.length = 22 ∧
    ("bbbbbbbbbbbbbbbbbbbbbb" : String).data.length = 22 ∧
    ("aaaaaaaaaaaaaaaaaaaaaa" : String) ≠ "bbbbbbbbbbbbbbbbbbbbbb" ∧
    hashpw "pw" "aaaaaaaaaaaaaaaaaaaaaa" ≠ hashpw "pw" "bbbbbbbbbbbbbbbbbbbbbb" ∧
    checkpw "pw" (hashpw "pw" "aaaaaaaaaaaaaaaaaaaaaa") = .ok true ∧
    checkpw "pw" (hashpw "pw" "bbbbbbbbbbbbbbbbbbbbbb") = .ok true :=
  have h := hash_fresh_salt_verify_roundtrip "pw"
    "aaaaaaaaaaaaaaaaaaaaaa" "bbbbbbbbbbbbbbbbbbbbbb"
    (by decide) (by decide) (by decide)
  ⟨by decide, by decide, by decide, h.1, h.2.1, h.2.2⟩

/-- C10: a settings update whose company id parses rewrites exactly the
three credential columns of every matched row from the payload (an omitted
payload field, being `none`, is written as null), leaves id, name and
created_at of matched rows and all unmatched rows unchanged, and its result
is independent of the payload's api_secret field, which is never stored. -/
theorem update_settings_frame
    (cid : String) (payload : SettingsUpdateRequest) (s : Store) (n : Int)
    (hp : pythonInt? cid = some n) :
    (update_settings cid payload s).2.companies =
      s.companies.map (fun c =>
        if (c.id : Int) == n then
          { c with shopify_domain := payload.shopify.shop_domain,
                   api_key := payload.shopify.api_key,
                   access_token := payload.shopify.access_token }
        else c) ∧
    ∀ sec : Option String,
      update_settings cid ⟨{ payload.shopify with api_secret := sec }⟩ s =
        update_settings cid payload s := by
  constructor
  · unfold update_settings
    rw [hp]
    dsimp only
    split <;> rfl
  · intro sec
    rfl

/-- C10 witness: updating company "1" in a two-company store overwrites the
credentials of company 1 only, keeps its name and created_at, and storing
any api_secret value changes nothing. -/
theorem update_settings_frame_witness :
    pythonInt? "1" = some 1 ∧
    (update_settings "1" ⟨⟨some "shop.example", some "tok", none, none⟩⟩
        (Store.mk
          [⟨1, "Acme", some "old.example", some "oldkey", some "oldtok", "2024-01-01"⟩,
           ⟨2, "Other", none, none, none, "2024-02-02"⟩]
          [] [] 3 1)).2.companies =
      [⟨1, "Acme", some "shop.example", none, some "tok", "2024-01-01"⟩,
       ⟨2, "Other", none, none, none, "2024-02-02"⟩] ∧
    update_settings "1" ⟨⟨some "shop.example", some "tok", none, some "sek"⟩⟩
        (Store.mk
          [⟨1, "Acme", some "old.example", some "oldkey", some "oldtok", "2024-01-01"⟩,
           ⟨2, "Other", none, none, none, "2024-02-02"⟩]
          [] [] 3 1) =
      update_settings "1" ⟨⟨some "shop.example", some "tok", none, none⟩⟩
        (Store.mk
          [⟨1, "Acme", some "old.example", some "oldkey", some "oldtok", "2024-01-01"⟩,
           ⟨2, "Other", none, none, none, "2024-02-02"⟩]
          [] [] 3 1) :=
  have h := update_settings_frame "1"
    ⟨⟨some "shop.example", some "tok", none, none⟩⟩
    (Store.mk
      [⟨1, "Acme", some "old.example", some "oldkey", some "oldtok", "2024-01-01"⟩,
       ⟨2, "Other", none, none, none, "2024-02-02"⟩]
      [] [] 3 1) 1 (by decide)
  ⟨by decide, by rw [h.1]; decide, h.2 (some "sek")⟩

end SaaS
